import Mathlib

/-!
Shallow embedding of the real-time transport core of the neko remote-desktop
service: the WebRTC peer-connection manager (`internal/webrtc/manager.go`),
the websocket signaling manager (`server/internal/websocket/manager.go`) and
the system message handler (`internal/websocket/handler/system.go`).
External collaborators (pion webrtc, the session registry, the capture
pipeline) are abstracted by their observable inputs and outputs; the control
flow of the embedded functions follows the Go source line by line.
-/

namespace Neko

/-! ### Common message/event vocabulary -/

/-- Cursor image entry delivered by the cursor image feed
(`cursor.ImageEntry`): abstract bitmap with dimensions. -/
structure ImageEntry where
  width : Nat
  height : Nat
  data : List Nat
deriving DecidableEq, Repr, Inhabited

/-- A message sent to one peer over its data channel. -/
inductive PeerMsg
  | cursorImage (entry : ImageEntry)
  | cursorPosition (x y : Int)
deriving DecidableEq, Repr

/-- Outbound signaling message relevant to renegotiation. -/
inductive SignalMsg
  | signalOffer (sdp : String)
deriving DecidableEq, Repr

/-! ### systemInit (`internal/websocket/handler/system.go`)

`MessageHandlerCtx.systemInit` builds a control-host descriptor, queries the
desktop screen size, and sends a SYSTEM_INIT message; when the screen size is
unavailable it logs at debug level and returns `nil` without sending. -/

/-- Screen size as reported by the desktop (`types.ScreenSize`). -/
structure ScreenSize where
  width : Nat
  height : Nat
  rate : Int
deriving DecidableEq, Repr

/-- Member entry of the SYSTEM_INIT payload (`message.MemberData`). -/
structure MemberData where
  id : String
  name : String
  isAdmin : Bool
deriving DecidableEq, Repr

/-- Control-host part of the SYSTEM_INIT payload (`message.ControlHost`). -/
structure ControlHost where
  hasHost : Bool
  hostID : String
deriving DecidableEq, Repr

/-- The SYSTEM_INIT payload (`message.SystemInit`). -/
structure SystemInit where
  controlHost : ControlHost
  members : List MemberData
  screenSize : ScreenSize
deriving DecidableEq, Repr

/-- A session as seen by the system-init handler: id, display name, admin
flag. -/
structure SessionInfo where
  id : String
  name : String
  admin : Bool
deriving DecidableEq, Repr

/-- `MessageHandlerCtx.systemInit`: `host` is `sessions.GetHost()` (its id),
`screenSize` is `desktop.GetScreenSize()`, `members` is `sessions.Members()`.
Returns `Except.ok none` when no message is sent (the nil-screen-size path)
and `Except.ok (some msg)` when the SYSTEM_INIT message `msg` is sent. -/
def systemInit (host : Option String) (screenSize : Option ScreenSize)
    (members : List SessionInfo) : Except String (Option SystemInit) :=
  let controlHost : ControlHost := ⟨host.isSome, host.getD ""⟩
  match screenSize with
  | none => Except.ok none
  | some size =>
    Except.ok (some ⟨controlHost,
      members.map (fun s => ⟨s.id, s.name, s.admin⟩), size⟩)

/-! ### Disconnect classification (`WebSocketManagerCtx.connect`)

After the blocking dispatch loop `manager.handle` returns, `connect`
classifies its error to decide the `delayedDisconnect` flag passed to
`session.DisconnectWebSocketPeer`. -/

/-- Termination cause of the dispatch loop: either a websocket close error
with its code (`*websocket.CloseError`), or any other read error. -/
inductive ReadTermination
  | closeError (code : Nat) (text : String)
  | readError (msg : String)
deriving DecidableEq, Repr

/-- `websocket.CloseNormalClosure`. -/
def closeNormalClosure : Nat := 1000

/-- `websocket.CloseGoingAway`. -/
def closeGoingAway : Nat := 1001

/-- The `delayedDisconnect` flag computed by `WebSocketManagerCtx.connect`
from the dispatch loop's termination: `none` is the clean-`nil` early-return
path (`delayed = false`); a non-close read error sets `delayed = true`; a
close error is switched on its code. -/
def classifyDisconnect : Option ReadTermination → Bool
  | none => false
  | some (ReadTermination.readError _) => true
  | some (ReadTermination.closeError code _) =>
    if code = closeNormalClosure then false
    else if code = closeGoingAway then false
    else true

/-! ### Negotiation-needed reaction (`connection.OnNegotiationNeeded`)

The handler fires, checks `connection.SignalingState()`, and either returns
immediately (not stable) or creates an offer and sends it as SIGNAL_OFFER. -/

/-- pion `webrtc.SignalingState`. -/
inductive SignalingState
  | stable
  | haveLocalOffer
  | haveRemoteOffer
  | haveLocalPranswer
  | haveRemotePranswer
  | closed
deriving DecidableEq, Repr

/-- The OnNegotiationNeeded handler body. `createOffer` is the outcome of
`peer.CreateOffer(false)` (`some sdp` on success, `none` on failure); it is
only consulted when the handler reaches that call. Returns whether
`CreateOffer` was invoked, and the message sent to the session (if any). -/
def onNegotiationNeeded (st : SignalingState) (createOffer : Option String) :
    Bool × Option SignalMsg :=
  if st ≠ SignalingState.stable then (false, none)
  else
    match createOffer with
    | none => (true, none)
    | some sdp => (true, some (SignalMsg.signalOffer sdp))

/-! ### Inactive-cursor aggregation tick (`startInactiveCursors` loop body)

On each ticker tick the loop pops the registry's per-session cursor buffers
(`sessions.PopCursors()`), suppresses the broadcast if both this pop and the
previous one were empty, and otherwise broadcasts one SESSION_CURSORS message
listing each contributing session with its accumulated points. -/

/-- One entry of the SESSION_CURSORS broadcast (`message.SessionCursors`). -/
structure SessionCursors where
  id : String
  cursors : List (Int × Int)
deriving DecidableEq, Repr

/-- One tick of the inactive-cursors loop. `lastEmpty` is the loop-local
flag from the previous tick (initially `false`); `cursorsMap` is the popped
map of per-session accumulated points. Returns the updated `lastEmpty` flag
and the broadcast sent on this tick, if any. -/
def cursorTick (lastEmpty : Bool) (cursorsMap : List (String × List (Int × Int))) :
    Bool × Option (List SessionCursors) :=
  let currentEmpty := cursorsMap.isEmpty
  if currentEmpty && lastEmpty then
    (lastEmpty, none)
  else
    (currentEmpty, some (cursorsMap.map (fun p => ⟨p.1, p.2⟩)))

/-- Number of broadcasts represented by one tick's optional output. -/
def broadcastCount : Option (List SessionCursors) → Nat
  | none => 0
  | some _ => 1

/-! ### Start/stop of the inactive-cursors loop and the settings reaction

`startInactiveCursors` refuses to start a second loop instance (the
`shutdownInactiveCursors` channel is non-nil) and logs a warning instead;
`stopInactiveCursors` closes the channel, which makes the running loop exit
and reset the channel to nil. The `OnSettingsChanged` reaction calls them
only on the false-to-true and true-to-false edges of `InactiveCursors`. -/

/-- Observable state of the websocket manager's inactive-cursors machinery:
whether `shutdownInactiveCursors` is non-nil (`running`), how many loop
goroutine instances exist, and how many warnings have been logged. -/
structure CursorLoopMgr where
  running : Bool
  loopInstances : Nat
  warnings : Nat
deriving DecidableEq, Repr

/-- `WebSocketManagerCtx.startInactiveCursors`: if already running, log the
"already running" warning and return; otherwise allocate the shutdown
channel and spawn one loop goroutine. -/
def startInactiveCursors (m : CursorLoopMgr) : CursorLoopMgr :=
  if m.running then { m with warnings := m.warnings + 1 }
  else { m with running := true, loopInstances := m.loopInstances + 1 }

/-- `WebSocketManagerCtx.stopInactiveCursors` together with the loop's
shutdown reaction: closing the channel makes the loop exit and set the
channel back to nil. A stop with no loop running is a no-op. -/
def stopInactiveCursors (m : CursorLoopMgr) : CursorLoopMgr :=
  if m.running then
    { m with running := false, loopInstances := m.loopInstances - 1 }
  else m

/-- The `InactiveCursors` part of the `OnSettingsChanged` reaction: start on
the false-to-true edge, stop on the true-to-false edge, otherwise leave the
loop machinery untouched. -/
def onSettingsChangedIC (m : CursorLoopMgr) (newIC oldIC : Bool) : CursorLoopMgr :=
  let m1 := if newIC && !oldIC then startInactiveCursors m else m
  if !newIC && oldIC then stopInactiveCursors m1 else m1

/-! ### Data-channel cursor wiring (`dataChannel.OnOpen` / `OnClose`)

Each peer owns two closures, `cursorImage` and `cursorPosition`. The
`cursorPosition` closure returns without sending when the session currently
holds host status; the `cursorImage` closure always attempts the send. On
open, both closures are registered as listeners on the manager's shared
cursor feeds, then the current cursor image (when `curImage.Get()` succeeds)
and the current cursor position are pushed through the same closures; on
close, both listeners are removed. -/

/-- The shared cursor feeds (`manager.curImage`, `manager.curPosition`):
listener lists keyed by the registered closure's identity (a token). -/
structure CursorFeeds where
  imageListeners : List Nat
  positionListeners : List Nat
deriving DecidableEq, Repr

/-- One peer's data channel as a message trace, with the host status its
session reports (`session.IsHost()`). -/
structure PeerChannel where
  isHost : Bool
  msgs : List PeerMsg
deriving DecidableEq, Repr

/-- The `cursorImage` closure: sends the cursor image to this peer
(send errors are only logged). -/
def sendCursorImage (p : PeerChannel) (e : ImageEntry) : PeerChannel :=
  { p with msgs := p.msgs ++ [PeerMsg.cursorImage e] }

/-- The `cursorPosition` closure: returns without sending when the session
is host, otherwise sends the position to this peer. -/
def sendCursorPosition (p : PeerChannel) (x y : Int) : PeerChannel :=
  if p.isHost then p
  else { p with msgs := p.msgs ++ [PeerMsg.cursorPosition x y] }

/-- `dataChannel.OnOpen`: register both closures (token `tok`) on the shared
feeds, then push the initial cursor image (`imageGet` is the outcome of
`manager.curImage.Get()`; a failure is logged and skipped) and the initial
cursor position (`pos` is `manager.desktop.GetCursorPosition()`) through the
closures. -/
def onOpenDC (tok : Nat) (feeds : CursorFeeds) (p : PeerChannel)
    (imageGet : Option ImageEntry) (pos : Int × Int) :
    CursorFeeds × PeerChannel :=
  let feeds' : CursorFeeds :=
    ⟨feeds.imageListeners ++ [tok], feeds.positionListeners ++ [tok]⟩
  let p1 := match imageGet with
    | some e => sendCursorImage p e
    | none => p
  let p2 := sendCursorPosition p1 pos.1 pos.2
  (feeds', p2)

/-- `dataChannel.OnClose`: remove both listeners from the shared feeds. -/
def onCloseDC (tok : Nat) (feeds : CursorFeeds) : CursorFeeds :=
  ⟨feeds.imageListeners.erase tok, feeds.positionListeners.erase tok⟩

/-- Whether a data-channel message is a cursor-position message. -/
def isPositionMsg : PeerMsg → Bool
  | PeerMsg.cursorPosition _ _ => true
  | _ => false

/-- A concrete cursor image entry used in concrete evaluations. -/
def sampleEntry : ImageEntry := ⟨8, 8, [0, 1]⟩

/-! ### `WebRTCManagerCtx.CreatePeer`

CreatePeer resolves the shared audio stream and the requested video stream
(failing with `ErrWebRTCVideoNotFound` before anything is built when the
video id is unknown), then builds the peer connection, adds one audio and
one video track, creates the "data" channel, stores the peer on the session
(`session.SetWebRTCPeer`) and returns the initial offer. Each construction
step of the underlying WebRTC library may fail and aborts creation. -/

/-- The capture registry (`types.CaptureManager`): the single shared audio
stream's codec, and the video streams by id with their codecs. -/
structure CaptureRegistry where
  audioCodec : String
  videos : List (String × String)
deriving Repr

/-- `manager.capture.Video(videoID)`: lookup of a video stream by id. -/
def CaptureRegistry.video (c : CaptureRegistry) (videoID : String) :
    Option String :=
  c.videos.lookup videoID

/-- Failure modes of `CreatePeer`; `ErrWebRTCVideoNotFound` is
`types.ErrWebRTCVideoNotFound`, the others stand for errors returned by the
underlying WebRTC library at the corresponding construction step. -/
inductive CreatePeerError
  | ErrWebRTCVideoNotFound
  | peerConnectionFailed
  | streamTrackFailed
  | addTrackFailed
  | dataChannelFailed
  | offerFailed
deriving DecidableEq, Repr

/-- Success/failure outcomes of the fallible construction steps inside
`CreatePeer`, and the SDP the offer would carry. -/
structure CreatePeerEnv where
  connOk : Bool
  audioTrackOk : Bool
  audioAddOk : Bool
  videoTrackOk : Bool
  videoAddOk : Bool
  dataChannelOk : Bool
  offerOk : Bool
  offerSDP : String
deriving Repr

/-- All construction steps succeed. -/
def CreatePeerEnv.allOk (env : CreatePeerEnv) : Bool :=
  env.connOk && env.audioTrackOk && env.audioAddOk && env.videoTrackOk &&
    env.videoAddOk && env.dataChannelOk && env.offerOk

/-- What `CreatePeer` built before returning: whether the peer connection
was created, and how many tracks were added and data channels created on
it. -/
structure BuildTrace where
  connCreated : Bool
  audioTracks : Nat
  videoTracks : Nat
  dataChannels : Nat
deriving DecidableEq, Repr

/-- Nothing built yet. -/
def emptyTrace : BuildTrace := ⟨false, 0, 0, 0⟩

/-- `session.SetWebRTCPeer`: install the new peer (recorded as the video id
it was created for) for `sid`, superseding any previous one. -/
def setPeer (peers : List (String × String)) (sid videoID : String) :
    List (String × String) :=
  (sid, videoID) :: peers.filter (fun q => q.1 ≠ sid)

/-- `WebRTCManagerCtx.CreatePeer` for session `sid` and stream `videoID`,
over the manager's map of per-session peers. Follows the source order:
video lookup, peer connection, audio track (create, add), video track
(create, add), data channel, `SetWebRTCPeer`, offer. Returns the updated
peer map, the build trace, and the offer or error. -/
def managerCreatePeer (peers : List (String × String))
    (capture : CaptureRegistry) (env : CreatePeerEnv) (sid videoID : String) :
    List (String × String) × BuildTrace × Except CreatePeerError String :=
  match capture.video videoID with
  | none => (peers, emptyTrace, Except.error CreatePeerError.ErrWebRTCVideoNotFound)
  | some _ =>
    if !env.connOk then
      (peers, emptyTrace, Except.error CreatePeerError.peerConnectionFailed)
    else if !env.audioTrackOk then
      (peers, ⟨true, 0, 0, 0⟩, Except.error CreatePeerError.streamTrackFailed)
    else if !env.audioAddOk then
      (peers, ⟨true, 0, 0, 0⟩, Except.error CreatePeerError.addTrackFailed)
    else if !env.videoTrackOk then
      (peers, ⟨true, 1, 0, 0⟩, Except.error CreatePeerError.streamTrackFailed)
    else if !env.videoAddOk then
      (peers, ⟨true, 1, 0, 0⟩, Except.error CreatePeerError.addTrackFailed)
    else if !env.dataChannelOk then
      (peers, ⟨true, 1, 1, 0⟩, Except.error CreatePeerError.dataChannelFailed)
    else
      let peers' := setPeer peers sid videoID
      if !env.offerOk then
        (peers', ⟨true, 1, 1, 1⟩, Except.error CreatePeerError.offerFailed)
      else
        (peers', ⟨true, 1, 1, 1⟩, Except.ok env.offerSDP)

/-! ### Inbound remote tracks (`connection.OnTrack`)

The handler rejects the track (stopping only the receiver) when media
sharing is disabled, the codec cannot be parsed, or the kind is neither
audio nor video. Otherwise it builds a one-shot `stopFn` (guarded by the
`stopped` flag; it stops the receiver and the sink), invokes the stored
stop function of the previous occupant of the kind's slot (`micStop` /
`camStop`), installs its own `stopFn` as the new occupant, starts the sink,
and pumps packets until a read failure, whereupon the deferred `stopFn`
runs. Errors are logged, never raised. -/

/-- pion `webrtc.RTPCodecType`: kind of a remote track. -/
inductive RTPCodecType
  | audio
  | video
  | other
deriving DecidableEq, Repr, Inhabited

/-- Observable state of one remote track's receiver, sink and one-shot stop
flag. `sinkActive` means the sink pipeline was started and not yet
stopped. -/
structure TrackState where
  kind : RTPCodecType
  sinkActive : Bool
  receiverStopped : Bool
  stopped : Bool
deriving DecidableEq, Repr, Inhabited

/-- The body of `stopFn`: a no-op when the one-shot `stopped` flag is set,
otherwise it sets the flag, stops the receiver and stops the sink. -/
def stopTrack (t : TrackState) : TrackState :=
  if t.stopped then t
  else { t with stopped := true, receiverStopped := true, sinkActive := false }

/-- Apply `f` to the element at index `i`, leaving the list unchanged when
`i` is out of range. -/
def modifyIdx : List α → Nat → (α → α) → List α
  | [], _, _ => []
  | x :: xs, 0, f => f x :: xs
  | x :: xs, n + 1, f => x :: modifyIdx xs n f

/-- The manager's inbound-passthrough state: all remote tracks ever
accepted (indexed), and the stored stop functions `micStop` and `camStop`
as indices of their tracks. -/
structure SlotState where
  tracks : List TrackState
  micStop : Option Nat
  camStop : Option Nat
deriving DecidableEq, Repr

/-- Invoke a stored stop function: run `stopTrack` on its track. -/
def runStop (s : SlotState) (i : Nat) : SlotState :=
  { s with tracks := modifyIdx s.tracks i stopTrack }

/-- The inputs deciding one `OnTrack` invocation: the session's
`CanShareMedia` profile flag, whether `codec.ParseRTC` succeeds on the
remote codec, the track kind, and whether `srcManager.Start` succeeds. -/
structure RemoteTrackInput where
  canShareMedia : Bool
  codecOk : Bool
  kind : RTPCodecType
  startOk : Bool
deriving DecidableEq, Repr

/-- Observable outcome of one `OnTrack` invocation: whether the track was
accepted past all reject checks, whether the receiver was stopped on the
reject path, whether the sink was started, whether a slot stop function was
installed, and whether any error was raised to the system (always false —
failures are only logged). -/
structure OnTrackResult where
  accepted : Bool
  receiverStopped : Bool
  sinkStarted : Bool
  slotInstalled : Bool
  errorRaised : Bool
deriving DecidableEq, Repr

/-- `if manager.micStop != nil { (*manager.micStop)() }`: invoke the stored
stop function of the current microphone-slot occupant, if any. -/
def invokeMicStop (s : SlotState) : SlotState :=
  match s.micStop with
  | some j => runStop s j
  | none => s

/-- `if manager.camStop != nil { (*manager.camStop)() }`: invoke the stored
stop function of the current webcam-slot occupant, if any. -/
def invokeCamStop (s : SlotState) : SlotState :=
  match s.camStop with
  | some j => runStop s j
  | none => s

/-- The `OnTrack` handler up to its steady state. Reject paths stop the
receiver and change nothing else. An accepted audio (resp. video) track
first invokes the stored `micStop` (resp. `camStop`) if present, then
installs itself as the slot occupant; if `srcManager.Start` fails the
handler returns and the deferred `stopFn` immediately stops the new track,
otherwise its sink is active until its read loop ends. -/
def onTrack (s : SlotState) (inp : RemoteTrackInput) :
    SlotState × OnTrackResult :=
  if !inp.canShareMedia then
    (s, ⟨false, true, false, false, false⟩)
  else if !inp.codecOk then
    (s, ⟨false, true, false, false, false⟩)
  else
    match inp.kind with
    | RTPCodecType.audio =>
      let s1 := invokeMicStop s
      let newTrack : TrackState :=
        ⟨RTPCodecType.audio, inp.startOk, !inp.startOk, !inp.startOk⟩
      (⟨s1.tracks ++ [newTrack], some s1.tracks.length, s1.camStop⟩,
        ⟨true, !inp.startOk, inp.startOk, true, false⟩)
    | RTPCodecType.video =>
      let s1 := invokeCamStop s
      let newTrack : TrackState :=
        ⟨RTPCodecType.video, inp.startOk, !inp.startOk, !inp.startOk⟩
      (⟨s1.tracks ++ [newTrack], s1.micStop, some s1.tracks.length⟩,
        ⟨true, !inp.startOk, inp.startOk, true, false⟩)
    | RTPCodecType.other =>
      (s, ⟨false, true, false, false, false⟩)

/-- Events on the manager's inbound-passthrough state: an `OnTrack`
invocation, or the end of track `i`'s read loop (read failure, after which
the deferred `stopFn` runs). -/
inductive SlotEvent
  | accept (inp : RemoteTrackInput)
  | finish (i : Nat)

/-- One step of the inbound-passthrough state machine. -/
def stepSlot (s : SlotState) : SlotEvent → SlotState
  | SlotEvent.accept inp => (onTrack s inp).1
  | SlotEvent.finish i => runStop s i

/-- The manager's initial inbound-passthrough state: no tracks, both slots
empty. -/
def initSlots : SlotState := ⟨[], none, none⟩

/-- The state after a sequence of inbound-track events from startup. -/
def runSlots (evs : List SlotEvent) : SlotState :=
  evs.foldl stepSlot initSlots

/-- Inductive invariant of the inbound-passthrough state: a stopped track
has no active sink, and every track with an active sink is the occupant its
kind's slot points to. -/
def SlotInv (s : SlotState) : Prop :=
  (∀ i, i < s.tracks.length →
    (s.tracks.getD i default).stopped = true →
    (s.tracks.getD i default).sinkActive = false) ∧
  (∀ i, i < s.tracks.length →
    (s.tracks.getD i default).sinkActive = true →
    ((s.tracks.getD i default).kind = RTPCodecType.audio ∧
      s.micStop = some i) ∨
    ((s.tracks.getD i default).kind = RTPCodecType.video ∧
      s.camStop = some i))

end Neko

namespace Neko

/-! ## Theorems -/

/-! ### Helper lemmas for the inbound-passthrough invariant -/

theorem modifyIdx_length (l : List α) (i : Nat) (f : α → α) :
    (modifyIdx l i f).length = l.length := by
  induction l generalizing i with
  | nil => rfl
  | cons x xs ih =>
    cases i with
    | zero => rfl
    | succ n => simp [modifyIdx, ih]

theorem modifyIdx_getD_self (l : List α) (i : Nat) (f : α → α) (d : α)
    (h : i < l.length) :
    (modifyIdx l i f).getD i d = f (l.getD i d) := by
  induction l generalizing i with
  | nil => simp at h
  | cons x xs ih =>
    cases i with
    | zero => simp [modifyIdx]
    | succ n =>
      simp only [modifyIdx, List.getD_cons_succ]
      exact ih n (Nat.lt_of_succ_lt_succ h)

theorem modifyIdx_getD_ne (l : List α) (i j : Nat) (f : α → α) (d : α)
    (h : j ≠ i) :
    (modifyIdx l i f).getD j d = l.getD j d := by
  induction l generalizing i j with
  | nil => rfl
  | cons x xs ih =>
    cases i with
    | zero =>
      cases j with
      | zero => exact absurd rfl h
      | succ m => simp [modifyIdx]
    | succ n =>
      cases j with
      | zero => simp [modifyIdx]
      | succ m =>
        simp only [modifyIdx, List.getD_cons_succ]
        exact ih n m (fun hc => h (congrArg Nat.succ hc))

theorem stopTrack_stopped (t : TrackState) : (stopTrack t).stopped = true := by
  by_cases h : t.stopped = true <;> simp [stopTrack, h]

theorem stopTrack_sinkActive_of (t : TrackState)
    (hs : t.stopped = true → t.sinkActive = false) :
    (stopTrack t).sinkActive = false := by
  by_cases h : t.stopped = true
  · simpa [stopTrack, h] using hs h
  · simp [stopTrack, h]

theorem stopTrack_idem (t : TrackState) :
    stopTrack (stopTrack t) = stopTrack t := by
  by_cases h : t.stopped = true <;> simp [stopTrack, h]

theorem invokeMicStop_length (s : SlotState) :
    (invokeMicStop s).tracks.length = s.tracks.length := by
  cases h : s.micStop with
  | none => simp [invokeMicStop, h]
  | some j => simp [invokeMicStop, h, runStop, modifyIdx_length]

theorem invokeCamStop_length (s : SlotState) :
    (invokeCamStop s).tracks.length = s.tracks.length := by
  cases h : s.camStop with
  | none => simp [invokeCamStop, h]
  | some j => simp [invokeCamStop, h, runStop, modifyIdx_length]

theorem slotInv_runStop {s : SlotState} (hInv : SlotInv s) (k : Nat) :
    SlotInv (runStop s k) := by
  obtain ⟨h1, h2⟩ := hInv
  have hlen : (runStop s k).tracks.length = s.tracks.length :=
    modifyIdx_length _ _ _
  have htr : (runStop s k).tracks = modifyIdx s.tracks k stopTrack := rfl
  constructor
  · intro i hi hstop
    rw [hlen] at hi
    by_cases hik : i = k
    · subst hik
      rw [htr, modifyIdx_getD_self _ _ _ _ hi] at hstop ⊢
      exact stopTrack_sinkActive_of _ (h1 i hi)
    · rw [htr, modifyIdx_getD_ne _ _ _ _ _ hik] at hstop ⊢
      exact h1 i hi hstop
  · intro i hi hact
    rw [hlen] at hi
    by_cases hik : i = k
    · subst hik
      rw [htr, modifyIdx_getD_self _ _ _ _ hi] at hact
      rw [stopTrack_sinkActive_of _ (h1 i hi)] at hact
      exact Bool.noConfusion hact
    · rw [htr, modifyIdx_getD_ne _ _ _ _ _ hik] at hact
      rcases h2 i hi hact with ⟨hk, hm⟩ | ⟨hk, hc⟩
      · left
        rw [htr, modifyIdx_getD_ne _ _ _ _ _ hik]
        exact ⟨hk, hm⟩
      · right
        rw [htr, modifyIdx_getD_ne _ _ _ _ _ hik]
        exact ⟨hk, hc⟩

theorem slotInv_invokeMicStop {s : SlotState} (hInv : SlotInv s) :
    SlotInv (invokeMicStop s) := by
  unfold invokeMicStop
  cases h : s.micStop with
  | none => exact hInv
  | some j => exact slotInv_runStop hInv j

theorem slotInv_invokeCamStop {s : SlotState} (hInv : SlotInv s) :
    SlotInv (invokeCamStop s) := by
  unfold invokeCamStop
  cases h : s.camStop with
  | none => exact hInv
  | some j => exact slotInv_runStop hInv j

theorem invokeMicStop_no_active_audio {s : SlotState} (hInv : SlotInv s) :
    ∀ i, i < (invokeMicStop s).tracks.length →
      ((invokeMicStop s).tracks.getD i default).sinkActive = true →
      ((invokeMicStop s).tracks.getD i default).kind = RTPCodecType.video := by
  unfold invokeMicStop
  cases h : s.micStop with
  | none =>
    intro i hi hact
    rcases hInv.2 i hi hact with ⟨_, hm⟩ | ⟨hk, _⟩
    · rw [h] at hm
      exact Option.noConfusion hm
    · exact hk
  | some j =>
    intro i hi hact
    have hlen : (runStop s j).tracks.length = s.tracks.length :=
      modifyIdx_length _ _ _
    have htr : (runStop s j).tracks = modifyIdx s.tracks j stopTrack := rfl
    rw [hlen] at hi
    by_cases hij : i = j
    · subst hij
      rw [htr, modifyIdx_getD_self _ _ _ _ hi] at hact
      rw [stopTrack_sinkActive_of _ (hInv.1 i hi)] at hact
      exact Bool.noConfusion hact
    · rw [htr, modifyIdx_getD_ne _ _ _ _ _ hij] at hact ⊢
      rcases hInv.2 i hi hact with ⟨_, hm⟩ | ⟨hk, _⟩
      · rw [h] at hm
        injection hm with hm'
        exact absurd hm'.symm hij
      · exact hk

theorem invokeCamStop_no_active_video {s : SlotState} (hInv : SlotInv s) :
    ∀ i, i < (invokeCamStop s).tracks.length →
      ((invokeCamStop s).tracks.getD i default).sinkActive = true →
      ((invokeCamStop s).tracks.getD i default).kind = RTPCodecType.audio := by
  unfold invokeCamStop
  cases h : s.camStop with
  | none =>
    intro i hi hact
    rcases hInv.2 i hi hact with ⟨hk, _⟩ | ⟨_, hc⟩
    · exact hk
    · rw [h] at hc
      exact Option.noConfusion hc
  | some j =>
    intro i hi hact
    have hlen : (runStop s j).tracks.length = s.tracks.length :=
      modifyIdx_length _ _ _
    have htr : (runStop s j).tracks = modifyIdx s.tracks j stopTrack := rfl
    rw [hlen] at hi
    by_cases hij : i = j
    · subst hij
      rw [htr, modifyIdx_getD_self _ _ _ _ hi] at hact
      rw [stopTrack_sinkActive_of _ (hInv.1 i hi)] at hact
      exact Bool.noConfusion hact
    · rw [htr, modifyIdx_getD_ne _ _ _ _ _ hij] at hact ⊢
      rcases hInv.2 i hi hact with ⟨hk, _⟩ | ⟨_, hc⟩
      · exact hk
      · rw [h] at hc
        injection hc with hc'
        exact absurd hc'.symm hij

theorem slotInv_append_audio {s1 : SlotState} (hInv1 : SlotInv s1)
    (hNoAudio : ∀ i, i < s1.tracks.length →
      (s1.tracks.getD i default).sinkActive = true →
      (s1.tracks.getD i default).kind = RTPCodecType.video)
    (so : Bool) :
    SlotInv ⟨s1.tracks ++ [⟨RTPCodecType.audio, so, !so, !so⟩],
      some s1.tracks.length, s1.camStop⟩ := by
  obtain ⟨h1, h2⟩ := hInv1
  constructor
  · intro i hi hstop
    simp only [List.length_append, List.length_singleton] at hi
    by_cases hil : i < s1.tracks.length
    · rw [List.getD_append _ _ _ _ hil] at hstop ⊢
      exact h1 i hil hstop
    · have hieq : i = s1.tracks.length := by omega
      subst hieq
      rw [List.getD_append_right _ _ _ _ (Nat.le_refl _), Nat.sub_self] at hstop ⊢
      simp only [List.getD_cons_zero] at hstop ⊢
      simp at hstop
      simp [hstop]
  · intro i hi hact
    simp only [List.length_append, List.length_singleton] at hi
    by_cases hil : i < s1.tracks.length
    · rw [List.getD_append _ _ _ _ hil] at hact ⊢
      rcases h2 i hil hact with ⟨hk, _⟩ | ⟨hk, hc⟩
      · rw [hNoAudio i hil hact] at hk
        exact absurd hk (by decide)
      · right
        exact ⟨hk, hc⟩
    · have hieq : i = s1.tracks.length := by omega
      subst hieq
      rw [List.getD_append_right _ _ _ _ (Nat.le_refl _), Nat.sub_self] at hact ⊢
      simp only [List.getD_cons_zero] at hact ⊢
      left
      exact ⟨trivial, trivial⟩

theorem slotInv_append_video {s1 : SlotState} (hInv1 : SlotInv s1)
    (hNoVideo : ∀ i, i < s1.tracks.length →
      (s1.tracks.getD i default).sinkActive = true →
      (s1.tracks.getD i default).kind = RTPCodecType.audio)
    (so : Bool) :
    SlotInv ⟨s1.tracks ++ [⟨RTPCodecType.video, so, !so, !so⟩],
      s1.micStop, some s1.tracks.length⟩ := by
  obtain ⟨h1, h2⟩ := hInv1
  constructor
  · intro i hi hstop
    simp only [List.length_append, List.length_singleton] at hi
    by_cases hil : i < s1.tracks.length
    · rw [List.getD_append _ _ _ _ hil] at hstop ⊢
      exact h1 i hil hstop
    · have hieq : i = s1.tracks.length := by omega
      subst hieq
      rw [List.getD_append_right _ _ _ _ (Nat.le_refl _), Nat.sub_self] at hstop ⊢
      simp only [List.getD_cons_zero] at hstop ⊢
      simp at hstop
      simp [hstop]
  · intro i hi hact
    simp only [List.length_append, List.length_singleton] at hi
    by_cases hil : i < s1.tracks.length
    · rw [List.getD_append _ _ _ _ hil] at hact ⊢
      rcases h2 i hil hact with ⟨hk, hm⟩ | ⟨hk, _⟩
      · left
        exact ⟨hk, hm⟩
      · rw [hNoVideo i hil hact] at hk
        exact absurd hk (by decide)
    · have hieq : i = s1.tracks.length := by omega
      subst hieq
      rw [List.getD_append_right _ _ _ _ (Nat.le_refl _), Nat.sub_self] at hact ⊢
      simp only [List.getD_cons_zero] at hact ⊢
      right
      exact ⟨trivial, trivial⟩

theorem slotInv_onTrack {s : SlotState} (hInv : SlotInv s)
    (inp : RemoteTrackInput) : SlotInv (onTrack s inp).1 := by
  rcases inp with ⟨cs, co, k, so⟩
  cases cs with
  | false => exact hInv
  | true =>
    cases co with
    | false => exact hInv
    | true =>
      cases k with
      | audio =>
        exact slotInv_append_audio (slotInv_invokeMicStop hInv)
          (invokeMicStop_no_active_audio hInv) so
      | video =>
        exact slotInv_append_video (slotInv_invokeCamStop hInv)
          (invokeCamStop_no_active_video hInv) so
      | other => exact hInv

theorem slotInv_step {s : SlotState} (hInv : SlotInv s) (e : SlotEvent) :
    SlotInv (stepSlot s e) := by
  cases e with
  | accept inp => exact slotInv_onTrack hInv inp
  | finish i => exact slotInv_runStop hInv i

theorem slotInv_foldl (evs : List SlotEvent) :
    ∀ s, SlotInv s → SlotInv (evs.foldl stepSlot s) := by
  induction evs with
  | nil => exact fun s h => h
  | cons e evs ih => exact fun s h => ih _ (slotInv_step h e)

theorem slotInv_initSlots : SlotInv initSlots := by
  constructor <;> intro i hi <;> simp [initSlots] at hi

theorem slotInv_runSlots (evs : List SlotEvent) : SlotInv (runSlots evs) :=
  slotInv_foldl evs initSlots slotInv_initSlots

/-- Claim C1: across any sequence of inbound-track events, at most one
remote track per media kind has an active sink at any time (two active
tracks of the same kind coincide); accepting a track of a kind first
invokes the stored stop function of that kind's previous occupant — its
one-shot flag is set in the resulting state — before installing the new
occupant; and the stop function is idempotent (one-shot, guarded by the
`stopped` flag). -/
theorem inbound_slot_single_occupancy :
    (∀ (evs : List SlotEvent) (i j : Nat),
      i < (runSlots evs).tracks.length →
      j < (runSlots evs).tracks.length →
      ((runSlots evs).tracks.getD i default).sinkActive = true →
      ((runSlots evs).tracks.getD j default).sinkActive = true →
      ((runSlots evs).tracks.getD i default).kind
        = ((runSlots evs).tracks.getD j default).kind →
      i = j) ∧
    (∀ (s : SlotState) (j : Nat) (inp : RemoteTrackInput),
      s.micStop = some j → j < s.tracks.length →
      inp.canShareMedia = true → inp.codecOk = true →
      inp.kind = RTPCodecType.audio →
      ((onTrack s inp).1.tracks.getD j default).stopped = true) ∧
    (∀ (s : SlotState) (j : Nat) (inp : RemoteTrackInput),
      s.camStop = some j → j < s.tracks.length →
      inp.canShareMedia = true → inp.codecOk = true →
      inp.kind = RTPCodecType.video →
      ((onTrack s inp).1.tracks.getD j default).stopped = true) ∧
    (∀ t, stopTrack (stopTrack t) = stopTrack t) := by
  refine ⟨?_, ?_, ?_, stopTrack_idem⟩
  · intro evs i j hi hj hia hja hk
    have hInv := slotInv_runSlots evs
    rcases hInv.2 i hi hia with ⟨hki, hmi⟩ | ⟨hki, hci⟩ <;>
      rcases hInv.2 j hj hja with ⟨hkj, hmj⟩ | ⟨hkj, hcj⟩
    · rw [hmi] at hmj
      exact Option.some.inj hmj
    · rw [hki, hkj] at hk
      exact absurd hk (by decide)
    · rw [hki, hkj] at hk
      exact absurd hk (by decide)
    · rw [hci] at hcj
      exact Option.some.inj hcj
  · intro s j inp hmic hjlen hcs hco hk
    rcases inp with ⟨cs, co, k, so⟩
    have hcs' : cs = true := hcs
    have hco' : co = true := hco
    have hk' : k = RTPCodecType.audio := hk
    subst hcs'; subst hco'; subst hk'
    have h1 : (onTrack s ⟨true, true, RTPCodecType.audio, so⟩).1.tracks
        = (invokeMicStop s).tracks ++
          [⟨RTPCodecType.audio, so, !so, !so⟩] := rfl
    have hjl : j < (invokeMicStop s).tracks.length := by
      rw [invokeMicStop_length]
      exact hjlen
    rw [h1, List.getD_append _ _ _ _ hjl]
    have h2 : invokeMicStop s = runStop s j := by
      unfold invokeMicStop
      rw [hmic]
    rw [h2]
    have h3 : (runStop s j).tracks = modifyIdx s.tracks j stopTrack := rfl
    rw [h3, modifyIdx_getD_self _ _ _ _ hjlen]
    exact stopTrack_stopped _
  · intro s j inp hcam hjlen hcs hco hk
    rcases inp with ⟨cs, co, k, so⟩
    have hcs' : cs = true := hcs
    have hco' : co = true := hco
    have hk' : k = RTPCodecType.video := hk
    subst hcs'; subst hco'; subst hk'
    have h1 : (onTrack s ⟨true, true, RTPCodecType.video, so⟩).1.tracks
        = (invokeCamStop s).tracks ++
          [⟨RTPCodecType.video, so, !so, !so⟩] := rfl
    have hjl : j < (invokeCamStop s).tracks.length := by
      rw [invokeCamStop_length]
      exact hjlen
    rw [h1, List.getD_append _ _ _ _ hjl]
    have h2 : invokeCamStop s = runStop s j := by
      unfold invokeCamStop
      rw [hcam]
    rw [h2]
    have h3 : (runStop s j).tracks = modifyIdx s.tracks j stopTrack := rfl
    rw [h3, modifyIdx_getD_self _ _ _ _ hjlen]
    exact stopTrack_stopped _

/-- Witness for C1: after two accepted audio tracks, the second occupies
the microphone slot with an active sink, the first is stopped, and the
uniqueness conclusion applies at the concrete state. -/
theorem inbound_slot_single_occupancy_witness :
    1 < (runSlots [SlotEvent.accept ⟨true, true, RTPCodecType.audio, true⟩,
      SlotEvent.accept
        ⟨true, true, RTPCodecType.audio, true⟩]).tracks.length ∧
    ((runSlots [SlotEvent.accept ⟨true, true, RTPCodecType.audio, true⟩,
      SlotEvent.accept ⟨true, true, RTPCodecType.audio, true⟩]).tracks.getD
        1 default).sinkActive = true ∧
    ((runSlots [SlotEvent.accept ⟨true, true, RTPCodecType.audio, true⟩,
      SlotEvent.accept ⟨true, true, RTPCodecType.audio, true⟩]).tracks.getD
        0 default).sinkActive = false ∧
    (1 : Nat) = 1 :=
  ⟨by decide, by decide, by decide,
    inbound_slot_single_occupancy.1
      [SlotEvent.accept ⟨true, true, RTPCodecType.audio, true⟩,
        SlotEvent.accept ⟨true, true, RTPCodecType.audio, true⟩]
      1 1 (by decide) (by decide) (by decide) (by decide) (by decide)⟩

/-- Claim C7: an inbound remote track from a session whose profile
disallows media sharing, or whose codec cannot be parsed, or whose kind is
neither audio nor video, has its receiver stopped with no sink started, no
slot touched (the state is unchanged) and no error raised. -/
theorem onTrack_reject_spec :
    ∀ (s : SlotState) (inp : RemoteTrackInput),
      inp.canShareMedia = false ∨ inp.codecOk = false ∨
        inp.kind = RTPCodecType.other →
      onTrack s inp = (s, ⟨false, true, false, false, false⟩) := by
  intro s inp h
  rcases inp with ⟨cs, co, k, so⟩
  rcases h with h | h | h
  · have hcs : cs = false := h
    subst hcs
    rfl
  · have hco : co = false := h
    subst hco
    cases cs <;> rfl
  · have hk : k = RTPCodecType.other := h
    subst hk
    cases cs <;> cases co <;> rfl

/-- Witness for C7: a remote video track from a session with
`CanShareMedia=false` stops the receiver, starts no sink, occupies no slot
and raises no error. -/
theorem onTrack_reject_spec_witness :
    ((⟨false, true, RTPCodecType.video, true⟩ :
        RemoteTrackInput).canShareMedia = false ∨
      (⟨false, true, RTPCodecType.video, true⟩ :
        RemoteTrackInput).codecOk = false ∨
      (⟨false, true, RTPCodecType.video, true⟩ :
        RemoteTrackInput).kind = RTPCodecType.other) ∧
    onTrack initSlots ⟨false, true, RTPCodecType.video, true⟩ =
      (initSlots, ⟨false, true, false, false, false⟩) :=
  ⟨Or.inl rfl,
    onTrack_reject_spec initSlots ⟨false, true, RTPCodecType.video, true⟩
      (Or.inl rfl)⟩

/-- Claim C10: when the desktop reports no screen size, `systemInit` returns
success (`nil` error in Go, `Except.ok` here) and sends no SYSTEM_INIT
message to the requesting session. -/
theorem systemInit_no_screen_size (host : Option String)
    (members : List SessionInfo) :
    systemInit host none members = Except.ok none := by
  rfl

/-- Claim C8: dispatch-loop termination classification. A `nil` termination
is a non-delayed disconnect; close errors with code normal-closure or
going-away are non-delayed; any other close code, and any non-close read
error, is a delayed disconnect. -/
theorem classifyDisconnect_spec :
    classifyDisconnect none = false ∧
    (∀ t, classifyDisconnect
      (some (ReadTermination.closeError closeNormalClosure t)) = false) ∧
    (∀ t, classifyDisconnect
      (some (ReadTermination.closeError closeGoingAway t)) = false) ∧
    (∀ code t, code ≠ closeNormalClosure → code ≠ closeGoingAway →
      classifyDisconnect (some (ReadTermination.closeError code t)) = true) ∧
    (∀ m, classifyDisconnect (some (ReadTermination.readError m)) = true) := by
  refine ⟨rfl, fun t => rfl, fun t => rfl, ?_, fun m => rfl⟩
  intro code t h1 h2
  simp [classifyDisconnect, h1, h2]

/-- Witness for C8: an abnormal close code (1006) yields a delayed
disconnect. -/
theorem classifyDisconnect_spec_witness :
    (1006 : Nat) ≠ closeNormalClosure ∧ (1006 : Nat) ≠ closeGoingAway ∧
    classifyDisconnect (some (ReadTermination.closeError 1006 "x")) = true :=
  ⟨by decide, by decide,
    classifyDisconnect_spec.2.2.2.1 1006 "x" (by decide) (by decide)⟩

/-- Claim C2: the negotiation-needed reaction creates no offer and sends
nothing when the signaling state is not stable; when it is stable and offer
creation succeeds, it creates the offer and sends it as SIGNAL_OFFER; any
sent message implies the state was stable. -/
theorem onNegotiationNeeded_spec :
    (∀ st co, st ≠ SignalingState.stable →
      onNegotiationNeeded st co = (false, none)) ∧
    (∀ sdp, onNegotiationNeeded SignalingState.stable (some sdp) =
      (true, some (SignalMsg.signalOffer sdp))) ∧
    (∀ st co m, (onNegotiationNeeded st co).2 = some m →
      st = SignalingState.stable) := by
  refine ⟨?_, fun sdp => rfl, ?_⟩
  · intro st co h
    simp [onNegotiationNeeded, h]
  · intro st co m h
    by_contra hne
    rw [show onNegotiationNeeded st co = (false, none) by
      simp [onNegotiationNeeded, hne]] at h
    exact Option.noConfusion h

/-- Witness for C2: a firing in `haveLocalOffer` state sends nothing and
creates no offer. -/
theorem onNegotiationNeeded_spec_witness :
    SignalingState.haveLocalOffer ≠ SignalingState.stable ∧
    onNegotiationNeeded SignalingState.haveLocalOffer (some "sdp") =
      (false, none) :=
  ⟨by decide,
    onNegotiationNeeded_spec.1 SignalingState.haveLocalOffer (some "sdp")
      (by decide)⟩

/-- Claim C4: an empty pop following an empty previous tick sends no
broadcast; otherwise exactly one broadcast is sent whose entries are exactly
the sessions of the popped map with their accumulated points; two
consecutive empty ticks produce at most one broadcast. -/
theorem cursorTick_spec :
    (∀ (last : Bool) (m : List (String × List (Int × Int))),
      m = [] → last = true → cursorTick last m = (true, none)) ∧
    (∀ (last : Bool) (m : List (String × List (Int × Int))),
      ¬(m = [] ∧ last = true) →
      (cursorTick last m).2 = some (m.map (fun p => ⟨p.1, p.2⟩))) ∧
    (∀ last : Bool,
      broadcastCount (cursorTick last []).2 +
        broadcastCount (cursorTick (cursorTick last []).1 []).2 ≤ 1) := by
  refine ⟨?_, ?_, ?_⟩
  · intro last m hm hl
    subst hm; subst hl
    rfl
  · intro last m h
    rcases m with _ | ⟨p, m⟩
    · rcases last with _ | _
      · rfl
      · exact absurd ⟨rfl, rfl⟩ h
    · rfl
  · intro last
    rcases last with _ | _ <;> decide

/-- Witness for C4: with the previous tick empty and an empty pop, no
broadcast is sent. -/
theorem cursorTick_spec_witness :
    ([] : List (String × List (Int × Int))) = [] ∧ true = true ∧
    cursorTick true [] = (true, none) :=
  ⟨rfl, rfl, cursorTick_spec.1 true [] rfl rfl⟩

/-- Counterexample for C6: with one loop instance running and no warnings
logged, a settings change with `InactiveCursors` unchanged at true leaves
the state untouched — in particular no warning is logged, contradicting the
claim that a warning is logged on the true-to-true transition. -/
theorem onSettingsChangedIC_true_true_no_warning :
    onSettingsChangedIC ⟨true, 1, 0⟩ true true = ⟨true, 1, 0⟩ ∧
    ¬ (onSettingsChangedIC ⟨true, 1, 0⟩ true true).warnings > 0 := by
  decide

/-- Claim C6 (amended): a settings change with `InactiveCursors` unchanged
(true-to-true or false-to-false) leaves the loop machinery untouched — no
second instance starts, instance count unchanged, and no warning is logged;
the instance count rises only on the false-to-true edge with no loop
running and falls only on the true-to-false edge with a loop running; the
"already running" warning is logged exactly when `startInactiveCursors`
itself is invoked while a loop is running. -/
theorem onSettingsChangedIC_edges :
    (∀ m, onSettingsChangedIC m true true = m) ∧
    (∀ m, onSettingsChangedIC m false false = m) ∧
    (∀ m newIC oldIC, (onSettingsChangedIC m newIC oldIC).loopInstances =
      (if newIC && !oldIC && !m.running then m.loopInstances + 1
       else if !newIC && oldIC && m.running then m.loopInstances - 1
       else m.loopInstances)) ∧
    (∀ m, m.running = true →
      startInactiveCursors m = { m with warnings := m.warnings + 1 }) := by
  refine ⟨fun m => rfl, fun m => rfl, ?_, ?_⟩
  · intro m newIC oldIC
    rcases m with ⟨r, li, w⟩
    rcases r with _ | _ <;> rcases newIC with _ | _ <;>
      rcases oldIC with _ | _ <;> rfl
  · intro m h
    simp [startInactiveCursors, h]

/-- Witness for C6: starting while a loop runs only logs a warning. -/
theorem onSettingsChangedIC_edges_witness :
    (CursorLoopMgr.mk true 1 0).running = true ∧
    startInactiveCursors ⟨true, 1, 0⟩ = ⟨true, 1, 1⟩ :=
  ⟨rfl, onSettingsChangedIC_edges.2.2.2 ⟨true, 1, 0⟩ rfl⟩

/-- Erasing a token appended to a list it did not occur in restores the
list. -/
theorem erase_append_singleton {l : List Nat} {a : Nat} (h : a ∉ l) :
    (l ++ [a]).erase a = l := by
  rw [List.erase_append_right _ h, List.erase_cons_head, List.append_nil]

/-- Counterexample for C5: a data channel opened for a session that holds
host status receives the initial cursor-image message but no initial
cursor-position message, refuting the claim that every open delivers
exactly one of each. -/
theorem onOpenDC_host_counterexample :
    (onOpenDC 0 ⟨[], []⟩ ⟨true, []⟩ (some sampleEntry) (1, 2)).2.msgs
      = [PeerMsg.cursorImage sampleEntry] ∧
    ¬ ((onOpenDC 0 ⟨[], []⟩ ⟨true, []⟩
        (some sampleEntry) (1, 2)).2.msgs.countP isPositionMsg = 1) := by
  decide

/-- Claim C5 (amended): on data-channel open, both cursor listeners are
registered on the shared feeds; provided the cursor-image fetch succeeds and
the session does not hold host status, the peer receives exactly one
initial cursor-image message and one initial cursor-position message, and
these precede any change-driven message since the feed callbacks only
append to the trace; on close both listeners are deregistered, restoring
the feeds. -/
theorem onOpenDC_spec (tok : Nat) (feeds : CursorFeeds) (p : PeerChannel)
    (e : ImageEntry) (pos : Int × Int)
    (hm : p.msgs = []) (hh : p.isHost = false)
    (hi : tok ∉ feeds.imageListeners) (hp : tok ∉ feeds.positionListeners) :
    (onOpenDC tok feeds p (some e) pos).1.imageListeners
      = feeds.imageListeners ++ [tok] ∧
    (onOpenDC tok feeds p (some e) pos).1.positionListeners
      = feeds.positionListeners ++ [tok] ∧
    (onOpenDC tok feeds p (some e) pos).2.msgs
      = [PeerMsg.cursorImage e, PeerMsg.cursorPosition pos.1 pos.2] ∧
    (∀ q e', (sendCursorImage q e').msgs = q.msgs ++ [PeerMsg.cursorImage e']) ∧
    (∀ q x y, q.isHost = false →
      (sendCursorPosition q x y).msgs = q.msgs ++ [PeerMsg.cursorPosition x y]) ∧
    onCloseDC tok (onOpenDC tok feeds p (some e) pos).1 = feeds := by
  refine ⟨rfl, rfl, ?_, fun q e' => rfl, ?_, ?_⟩
  · simp [onOpenDC, sendCursorImage, sendCursorPosition, hm, hh]
  · intro q x y h
    simp [sendCursorPosition, h]
  · rcases feeds with ⟨il, pl⟩
    simp only [onOpenDC, onCloseDC]
    rw [erase_append_singleton hi, erase_append_singleton hp]

/-- Witness for C5: a fresh non-host channel gets exactly the initial image
then the initial position. -/
theorem onOpenDC_spec_witness :
    (PeerChannel.mk false []).msgs = [] ∧
    (PeerChannel.mk false []).isHost = false ∧
    (0 : Nat) ∉ ([] : List Nat) ∧
    (onOpenDC 0 ⟨[], []⟩ ⟨false, []⟩ (some sampleEntry) (3, 4)).2.msgs
      = [PeerMsg.cursorImage sampleEntry, PeerMsg.cursorPosition 3 4] :=
  ⟨rfl, rfl, by decide,
    (onOpenDC_spec 0 ⟨[], []⟩ ⟨false, []⟩ sampleEntry (3, 4) rfl rfl
      (by decide) (by decide)).2.2.1⟩

/-- Claim C9: the `cursorPosition` closure is a no-op for a session that
holds host status — no cursor-position message (initial or change-driven)
is ever added to its channel — while the `cursorImage` closure appends its
message unconditionally; in particular opening a data channel for a host
session adds no cursor-position message. -/
theorem hostPositionSuppressed :
    (∀ p x y, p.isHost = true → sendCursorPosition p x y = p) ∧
    (∀ p e, (sendCursorImage p e).msgs = p.msgs ++ [PeerMsg.cursorImage e]) ∧
    (∀ tok feeds p ig pos, p.isHost = true →
      ((onOpenDC tok feeds p ig pos).2.msgs.countP isPositionMsg)
        = p.msgs.countP isPositionMsg) := by
  refine ⟨?_, fun p e => rfl, ?_⟩
  · intro p x y h
    simp [sendCursorPosition, h]
  · intro tok feeds p ig pos h
    rcases ig with _ | e
    · simp [onOpenDC, sendCursorPosition, h]
    · simp [onOpenDC, sendCursorPosition, sendCursorImage, h,
        List.countP_append, isPositionMsg]

/-- Witness for C9: a host channel stays unchanged under the position
closure. -/
theorem hostPositionSuppressed_witness :
    (PeerChannel.mk true []).isHost = true ∧
    sendCursorPosition ⟨true, []⟩ 5 6 = ⟨true, []⟩ :=
  ⟨rfl, hostPositionSuppressed.1 ⟨true, []⟩ 5 6 rfl⟩

/-- Claim C3: `CreatePeer` with an unknown video id returns
`ErrWebRTCVideoNotFound` having built nothing and leaving every existing
peer untouched; with a known video id and all construction steps
succeeding, it installs the peer for the session and returns the offer for
a connection with one audio track, one video track and one data channel. -/
theorem managerCreatePeer_spec :
    (∀ peers capture env sid videoID,
      CaptureRegistry.video capture videoID = none →
      managerCreatePeer peers capture env sid videoID =
        (peers, emptyTrace,
          Except.error CreatePeerError.ErrWebRTCVideoNotFound)) ∧
    (∀ peers capture env sid videoID c,
      CaptureRegistry.video capture videoID = some c →
      CreatePeerEnv.allOk env = true →
      managerCreatePeer peers capture env sid videoID =
        (setPeer peers sid videoID, ⟨true, 1, 1, 1⟩,
          Except.ok env.offerSDP)) := by
  constructor
  · intro peers capture env sid videoID h
    unfold managerCreatePeer
    rw [h]
  · intro peers capture env sid videoID c h hall
    simp only [CreatePeerEnv.allOk, Bool.and_eq_true] at hall
    obtain ⟨⟨⟨⟨⟨⟨h1, h2⟩, h3⟩, h4⟩, h5⟩, h6⟩, h7⟩ := hall
    unfold managerCreatePeer
    rw [h]
    simp [h1, h2, h3, h4, h5, h6, h7]

/-- Witness for C3: viewer A gets an offer for existing stream "cam1" (one
audio track, one video track, one data channel); viewer B then fails on
unknown stream "cam99" and A's installed peer is untouched. -/
theorem managerCreatePeer_spec_witness :
    CaptureRegistry.video ⟨"opus", [("cam1", "vp8")]⟩ "cam1" = some "vp8" ∧
    CreatePeerEnv.allOk ⟨true, true, true, true, true, true, true, "sdpA"⟩
      = true ∧
    managerCreatePeer [] ⟨"opus", [("cam1", "vp8")]⟩
      ⟨true, true, true, true, true, true, true, "sdpA"⟩ "A" "cam1" =
      ([("A", "cam1")], ⟨true, 1, 1, 1⟩, Except.ok "sdpA") ∧
    CaptureRegistry.video ⟨"opus", [("cam1", "vp8")]⟩ "cam99" = none ∧
    managerCreatePeer [("A", "cam1")] ⟨"opus", [("cam1", "vp8")]⟩
      ⟨true, true, true, true, true, true, true, "sdpB"⟩ "B" "cam99" =
      ([("A", "cam1")], emptyTrace,
        Except.error CreatePeerError.ErrWebRTCVideoNotFound) :=
  ⟨by decide, by decide,
    managerCreatePeer_spec.2 [] ⟨"opus", [("cam1", "vp8")]⟩
      ⟨true, true, true, true, true, true, true, "sdpA"⟩ "A" "cam1" "vp8"
      (by decide) (by decide),
    by decide,
    managerCreatePeer_spec.1 [("A", "cam1")] ⟨"opus", [("cam1", "vp8")]⟩
      ⟨true, true, true, true, true, true, true, "sdpB"⟩ "B" "cam99"
      (by decide)⟩

end Neko
